import Mathlib

/-!
Verification of the cstore table access method adapter (`cstore_tableam.c`)
of the columnar storage engine, against its natural-language specification.

The adapter code in `cstore_tableam.c` is embedded directly.  The storage
engine proper (write/read state machines, stripe builder, metadata catalog:
`CStoreBeginWrite`, `CStoreWriteRow`, `CStoreEndWrite`, `CStoreBeginRead`,
`CStoreReadNextRow`, `CStoreTableRowCount`, `ReadDataFileMetadata`,
`InitCStoreDataFileMetadata`, `DeleteDataFileMetadataRowIfExists`) is not
part of the analysed sources; those definitions are modelled from the
specification (sections 3, 4.2-4.6, 6) and are marked as such.
-/

namespace CStore

/-- A datum: the abstract value of one attribute of one row. -/
abbrev Datum := Nat

/-- One cell of a row: the datum together with its null flag
(`tts_values[i]`, `tts_isnull[i]`). -/
abbrev Cell := Datum × Bool

/-- A row: one cell per attribute, in attribute order. -/
abbrev Row := List Cell

/-- The cell produced for a column position that was not decoded. -/
def defaultCell : Cell := (0, true)

instance {ε α : Type} [DecidableEq ε] [DecidableEq α] : DecidableEq (Except ε α) :=
  fun a b =>
    match a, b with
    | .error e, .error f =>
      if h : e = f then .isTrue (by rw [h])
      else .isFalse (fun hc => by cases hc; exact h rfl)
    | .error _, .ok _ => .isFalse (fun hc => by cases hc)
    | .ok _, .error _ => .isFalse (fun hc => by cases hc)
    | .ok x, .ok y =>
      if h : x = y then .isTrue (by rw [h])
      else .isFalse (fun hc => by cases hc; exact h rfl)

/-- Splits a list into consecutive chunks of at most `b` elements
(fuel-driven so that it is structurally recursive; the fuel is always
instantiated with the length of the list). -/
def chunkListFuel : Nat → Nat → List α → List (List α)
  | 0, _, l => if l.isEmpty then [] else [l]
  | fuel + 1, b, l => if l.isEmpty then [] else l.take b :: chunkListFuel fuel b (l.drop b)

/-- Splits a list into consecutive chunks of `b` elements, the last chunk
possibly shorter. -/
def chunkList (b : Nat) (l : List α) : List (List α) :=
  chunkListFuel l.length b l

/-- Modelled from the spec: a column block (§3, §4.2), the compressed,
self-describing encoding of one column's cells for a bounded row range.
Compression is abstracted away (the codec layer is pluggable and at least
one codec is the identity, §4.1); the block keeps its logical cell list. -/
structure ColumnBlock where
  cells : List Cell
deriving DecidableEq, Repr

/-- Modelled from the spec: one row range of a stripe — for every column,
the column block covering exactly that row range (§3 invariant: all blocks
within a stripe cover exactly the same row range). -/
structure StripeBlock where
  rowCount : Nat
  columnBlocks : List ColumnBlock
deriving DecidableEq, Repr

/-- Modelled from the spec: a stripe descriptor (§3, §6): row count and the
per-column blocks for each contained row range. -/
structure StripeDescriptor where
  rowCount : Nat
  blocks : List StripeBlock
deriving DecidableEq, Repr

/-- Modelled from the spec: the block encoder (§4.2): packs one bounded row
range into one column block per column, preserving values and null flags in
original row order. -/
def encodeStripeBlock (natts : Nat) (rows : List Row) : StripeBlock :=
  { rowCount := rows.length
    columnBlocks :=
      (List.range natts).map fun j => { cells := rows.map fun r => r.getD j defaultCell } }

/-- Modelled from the spec: the block decoder (§4.2, §4.6): reconstructs the
rows of one row range, decoding only the columns whose attribute number is in
the projection `proj`; unrequested columns are skipped and their cells left
unset (null). -/
def decodeStripeBlock (natts : Nat) (proj : List Nat) (blk : StripeBlock) : List Row :=
  (List.range blk.rowCount).map fun i =>
    (List.range natts).map fun j =>
      if proj.contains (j + 1) then
        (blk.columnBlocks.getD j { cells := [] }).cells.getD i defaultCell
      else defaultCell

/-- Modelled from the spec: the stripe builder (§4.3): chunks the buffered
rows at the block-row-count threshold and encodes one column block per column
for each chunk. -/
def buildStripe (natts blockRowCount : Nat) (rows : List Row) : StripeDescriptor :=
  { rowCount := rows.length
    blocks := (chunkList blockRowCount rows).map (encodeStripeBlock natts) }

/-- Modelled from the spec: the stripe reader (§4.6): decodes the requested
columns of every block of a stripe, in-stripe row order. -/
def decodeStripe (natts : Nat) (proj : List Nat) (s : StripeDescriptor) : List Row :=
  (s.blocks.map (decodeStripeBlock natts proj)).flatten

/-- Modelled from the spec: a metadata catalog entry (§3, §4.5): the
block-row-count chosen for the relation and its ordered stripe list. -/
structure DataFileMetadata where
  blockRowCount : Nat
  stripes : List StripeDescriptor
deriving DecidableEq, Repr

/-- Modelled from the spec: the metadata catalog (§4.5), keyed by the
relation's relfilenode. -/
abbrev Catalog := Nat → Option DataFileMetadata

/-- Modelled from the spec: `initialize(relationId, blockRowCount)` (§4.5,
§6 `initializeStorage`), `InitCStoreDataFileMetadata` in the engine, missing
from the analysed sources: creates or entirely replaces the entry with an
empty stripe list and the given block-row-count. -/
def InitCStoreDataFileMetadata (cat : Catalog) (relNode : Nat) (blockRowCount : Nat) :
    Catalog :=
  fun r => if r = relNode then some { blockRowCount := blockRowCount, stripes := [] }
           else cat r

/-- Modelled from the spec: `delete(relationId)` (§4.5, §6 `deleteMetadata`),
`DeleteDataFileMetadataRowIfExists` in the engine, missing from the analysed
sources: removes the entry when present, no-op otherwise. -/
def DeleteDataFileMetadataRowIfExists (cat : Catalog) (relNode : Nat) : Catalog :=
  fun r => if r = relNode then none else cat r

/-- Modelled from the spec: `read(relationId) -> layout-or-absent` (§4.5),
`ReadDataFileMetadata` in the engine, missing from the analysed sources.
With `missingOk` an absent entry yields `none`; without it, the absence is a
`NotFoundError` (§7). -/
def ReadDataFileMetadata (cat : Catalog) (relNode : Nat) (missingOk : Bool) :
    Except String (Option DataFileMetadata) :=
  match cat relNode with
  | some m => .ok (some m)
  | none => if missingOk then .ok none else .error "NotFoundError"

/-- Modelled from the spec: `appendStripe(relationId, stripeDescriptor)`
(§4.3, §4.5), missing from the analysed sources: durably appends one stripe
descriptor to the relation's stripe list. -/
def AppendStripeMetadata (cat : Catalog) (relNode : Nat) (s : StripeDescriptor) :
    Catalog :=
  fun r => if r = relNode then (cat relNode).map fun m => { m with stripes := m.stripes ++ [s] }
           else cat r

/-- Modelled from the spec: `estimateRowCount(relationId)` (§6),
`CStoreTableRowCount` in the engine, missing from the analysed sources:
sums the stripe row counts recorded in the metadata catalog, without a full
scan; an unknown relation is a `NotFoundError` (§7). -/
def CStoreTableRowCount (cat : Catalog) (relNode : Nat) : Except String Nat :=
  match cat relNode with
  | some m => .ok ((m.stripes.map StripeDescriptor.rowCount).sum)
  | none => .error "NotFoundError"

/-- Compression kinds (`cstore_compression`); pluggable per §4.1, with the
identity codec always available. -/
inductive CompressionType
  | noCompression
  | pglz
deriving DecidableEq, Repr

/-- Structure `CStoreOptions` (`CStoreTableAMGetOptions`): the session-level GUC values
for compression, stripe row count and block row count. -/
structure CStoreOptions where
  compressionType : CompressionType
  stripeRowCount : Nat
  blockRowCount : Nat
deriving DecidableEq, Repr

/-- One attribute of a tuple descriptor (`FormData_pg_attribute`): its type
oid and whether the attribute has been dropped. -/
structure AttrInfo where
  atttypid : Nat
  attisdropped : Bool
deriving DecidableEq, Repr

/-- A tuple descriptor: the attributes in attribute-number order. -/
abbrev TupleDesc := List AttrInfo

/-- The relation fields the adapter uses: the relation oid (`rd_id`), the
relfilenode (`rd_node.relNode`) and the tuple descriptor. -/
structure RelationInfo where
  rd_id : Nat
  relNode : Nat
  tupdesc : TupleDesc
deriving DecidableEq, Repr

/-- Structure `TableWriteState`: the open write state of the engine (§4.4), holding
the stripe buffer under construction. -/
structure TableWriteState where
  relation : RelationInfo
  compressionType : CompressionType
  stripeRowCount : Nat
  blockRowCount : Nat
  tupleDescriptor : TupleDesc
  stripeBuffer : List Row
deriving DecidableEq, Repr

/-- Modelled from the spec: `beginWrite` / `CStoreBeginWrite` (§4.4), missing
from the analysed sources: opens or creates the metadata catalog entry for
the relation and establishes the buffering thresholds with an empty buffer. -/
def CStoreBeginWrite (cat : Catalog) (relation : RelationInfo)
    (compressionType : CompressionType) (stripeRowCount blockRowCount : Nat)
    (tupdesc : TupleDesc) : TableWriteState × Catalog :=
  let cat' := match cat relation.relNode with
    | some _ => cat
    | none => InitCStoreDataFileMetadata cat relation.relNode blockRowCount
  ({ relation := relation
     compressionType := compressionType
     stripeRowCount := stripeRowCount
     blockRowCount := blockRowCount
     tupleDescriptor := tupdesc
     stripeBuffer := [] }, cat')

/-- Modelled from the spec: `writeRow` / `CStoreWriteRow` (§4.3, §4.4),
missing from the analysed sources: appends one row to the stripe buffer and,
when the stripe-row-count threshold is reached, finalizes the stripe (data
first, then its catalog descriptor) and resets the buffer. -/
def CStoreWriteRow (ws : TableWriteState) (cat : Catalog) (row : Row) :
    TableWriteState × Catalog :=
  let buffer := ws.stripeBuffer ++ [row]
  if ws.stripeRowCount ≤ buffer.length then
    ({ ws with stripeBuffer := [] },
     AppendStripeMetadata cat ws.relation.relNode
       (buildStripe ws.tupleDescriptor.length ws.blockRowCount buffer))
  else
    ({ ws with stripeBuffer := buffer }, cat)

/-- Modelled from the spec: `endWrite` / `CStoreEndWrite` (§4.4), missing
from the analysed sources: finalizes any partially filled stripe (even below
threshold) so no buffered row is lost, and releases the buffers. -/
def CStoreEndWrite (ws : TableWriteState) (cat : Catalog) : Catalog :=
  if ws.stripeBuffer.isEmpty then cat
  else
    AppendStripeMetadata cat ws.relation.relNode
      (buildStripe ws.tupleDescriptor.length ws.blockRowCount ws.stripeBuffer)

/-- A `Var` node as built by `makeVar` in `RelationColumnList`: the attribute
number and the attribute type oid (the other fields are constants there). -/
structure Var where
  varattno : Nat
  vartype : Nat
deriving DecidableEq, Repr

/-- Structure `TableReadState`: the open read state of the engine (§4.6): the projected
column list and qualification handed to `CStoreBeginRead`, and the remaining
rows of the lazy row sequence. -/
structure TableReadState where
  projectedColumnList : List Var
  whereClauseList : Option Unit
  remainingRows : List Row
deriving DecidableEq, Repr

/-- Modelled from the spec: `beginRead` / `CStoreBeginRead` (§4.6), missing
from the analysed sources: loads the stripe list from the metadata catalog
(absence is a `NotFoundError`, distinguished from zero stripes) and prepares
the row sequence, decoding only the projected columns of each stripe, in
stripe order then in-stripe row order. -/
def CStoreBeginRead (cat : Catalog) (relation : RelationInfo) (tupdesc : TupleDesc)
    (columnList : List Var) (whereClauseList : Option Unit) :
    Except String TableReadState :=
  match cat relation.relNode with
  | none => .error "NotFoundError"
  | some m =>
    .ok { projectedColumnList := columnList
          whereClauseList := whereClauseList
          remainingRows :=
            (m.stripes.map
              (decodeStripe tupdesc.length (columnList.map Var.varattno))).flatten }

/-- Modelled from the spec: `readNextRow` / `CStoreReadNextRow` (§4.6),
missing from the analysed sources: yields the next row of the sequence, or
nothing when all stripes are exhausted. -/
def CStoreReadNextRow (rs : TableReadState) : Option (Row × TableReadState) :=
  match rs.remainingRows with
  | [] => none
  | r :: rest => some (r, { rs with remainingRows := rest })

/-- The adapter's process-wide mutable state: the metadata catalog (durable
side effects of the engine) and the global `CStoreWriteState` pointer
(`static TableWriteState *CStoreWriteState = NULL`). -/
structure GlobalState where
  catalog : Catalog
  writeState : Option TableWriteState

/-- A tuple table slot as the insert paths see it: the per-attribute cells
(values with null flags) and whether any attribute is stored externally
(`HeapTupleHasExternal`). -/
structure TupleSlot where
  cells : List Cell
  hasExternal : Bool
deriving DecidableEq, Repr

/-- Function `toast_flatten_tuple`: replaces externally stored attributes by their
inline representation; the logical values and null flags are unchanged. -/
def toast_flatten_slot (slot : TupleSlot) : TupleSlot :=
  { slot with hasExternal := false }

/-- Function `slot_getallattrs` followed by reading `tts_values` / `tts_isnull`:
the slot's cells in attribute order. -/
def slot_getallattrs (slot : TupleSlot) : Row :=
  slot.cells

/-- Function `cstore_init_write_state` (`cstore_tableam.c:95`): if a write state is
already open, `Assert` that it belongs to the same relation (a conflicting
attempt fails the assertion) and reuse it; only when none is open, build a
fresh write state from the session options (`CStoreTableAMGetOptions`). -/
def cstore_init_write_state (relation : RelationInfo) (opts : CStoreOptions)
    (g : GlobalState) : Except String GlobalState :=
  match g.writeState with
  | some ws =>
    if ws.relation.rd_id = relation.rd_id then .ok g
    else .error "Assert failed: CStoreWriteState is open for another relation"
  | none =>
    let p := CStoreBeginWrite g.catalog relation opts.compressionType
      opts.stripeRowCount opts.blockRowCount relation.tupdesc
    .ok { catalog := p.2, writeState := some p.1 }

/-- Function `cstore_free_write_state` (`cstore_tableam.c:122`): if a write state is
open, flush it with `CStoreEndWrite` and clear the global pointer; otherwise
do nothing. -/
def cstore_free_write_state (g : GlobalState) : GlobalState :=
  match g.writeState with
  | none => g
  | some ws => { catalog := CStoreEndWrite ws g.catalog, writeState := none }

/-- Function `cstore_finish_bulk_insert` (`cstore_tableam.c:440`): frees the write
state (for COPY). -/
def cstore_finish_bulk_insert (g : GlobalState) : GlobalState :=
  cstore_free_write_state g

/-- Function `cstore_tuple_insert` (`cstore_tableam.c:338`): initialize the write
state, detoast externally stored attributes, fetch all attributes and hand
the row to `CStoreWriteRow`. -/
def cstore_tuple_insert (relation : RelationInfo) (slot : TupleSlot)
    (opts : CStoreOptions) (g : GlobalState) : Except String GlobalState := do
  let g ← cstore_init_write_state relation opts g
  match g.writeState with
  | none => .error "no write state"
  | some ws =>
    let slot := if slot.hasExternal then toast_flatten_slot slot else slot
    let p := CStoreWriteRow ws g.catalog (slot_getallattrs slot)
    .ok { catalog := p.2, writeState := some p.1 }

/-- The loop body of `cstore_multi_insert`: detoast one slot, fetch all its
attributes and hand the row to `CStoreWriteRow` against the open state. -/
def cstore_multi_insert_step (g : GlobalState) (slot : TupleSlot) : GlobalState :=
  match g.writeState with
  | none => g
  | some ws =>
    let slot := if slot.hasExternal then toast_flatten_slot slot else slot
    let p := CStoreWriteRow ws g.catalog (slot_getallattrs slot)
    { catalog := p.2, writeState := some p.1 }

/-- Function `cstore_multi_insert` (`cstore_tableam.c:381`): initialize the write
state once, then write every slot in order. -/
def cstore_multi_insert (relation : RelationInfo) (slots : List TupleSlot)
    (opts : CStoreOptions) (g : GlobalState) : Except String GlobalState := do
  let g ← cstore_init_write_state relation opts g
  .ok (slots.foldl cstore_multi_insert_step g)

/-- Function `RelationColumnList` (`cstore_tableam.c:135`) as the loop over attribute
positions starting at `i`: skip dropped attributes, otherwise append a `Var`
with `varattno = i + 1` and the attribute's type oid. -/
def RelationColumnListFrom : Nat → TupleDesc → List Var
  | _, [] => []
  | i, att :: rest =>
    if att.attisdropped then RelationColumnListFrom (i + 1) rest
    else { varattno := i + 1, vartype := att.atttypid } :: RelationColumnListFrom (i + 1) rest

/-- Function `RelationColumnList` (`cstore_tableam.c:135`): one `Var` per non-dropped
attribute of the relation, in attribute-number order. -/
def RelationColumnList (tupdesc : TupleDesc) : List Var :=
  RelationColumnListFrom 0 tupdesc

/-- Structure `CStoreScanDescData`: the scan descriptor holding the read state. -/
structure CStoreScanDescData where
  cs_readState : TableReadState
deriving DecidableEq, Repr

/-- Function `cstore_beginscan` (`cstore_tableam.c:172`): builds the relation's full
column list with `RelationColumnList` and begins a read with it and a `NULL`
qualification list. -/
def cstore_beginscan (relation : RelationInfo) (cat : Catalog) :
    Except String CStoreScanDescData := do
  let columnList := RelationColumnList relation.tupdesc
  let readState ← CStoreBeginRead cat relation relation.tupdesc columnList none
  .ok { cs_readState := readState }

/-- Function `cstore_getnextslot` (`cstore_tableam.c:219`): fetch the next row from
`CStoreReadNextRow`; returns the stored row and the advanced scan, or
nothing when the scan is exhausted. -/
def cstore_getnextslot (scan : CStoreScanDescData) :
    Option (Row × CStoreScanDescData) :=
  match CStoreReadNextRow scan.cs_readState with
  | none => none
  | some (row, rs') => some (row, { cs_readState := rs' })

/-- Repeated `cstore_getnextslot` with explicit fuel (instantiated with the
length of the remaining row sequence): the rows a full scan produces. -/
def collectScanRowsFuel : Nat → CStoreScanDescData → List Row
  | 0, _ => []
  | fuel + 1, scan =>
    match cstore_getnextslot scan with
    | none => []
    | some (row, scan') => row :: collectScanRowsFuel fuel scan'

/-- All rows produced by repeatedly calling `cstore_getnextslot` until it
reports that the scan is exhausted. -/
def collectScanRows (scan : CStoreScanDescData) : List Row :=
  collectScanRowsFuel scan.cs_readState.remainingRows.length scan

/-- Function `cstore_tuple_satisfies_snapshot` (`cstore_tableam.c:321`): always true,
whatever the slot and snapshot. -/
def cstore_tuple_satisfies_snapshot (relation : RelationInfo) (slot : TupleSlot)
    (snapshot : Nat) : Bool :=
  true

/-- The outputs of `cstore_estimate_rel_size` this model tracks: the tuple
count and the all-visible fraction (`*tuples`, `*allvisfrac`). -/
structure RelSizeEstimate where
  tuples : Nat
  allvisfrac : Rat
deriving DecidableEq, Repr

/-- Function `cstore_estimate_rel_size` (`cstore_tableam.c:696`): the tuple count is
`CStoreTableRowCount` and the all-visible fraction is exactly 1.0. -/
def cstore_estimate_rel_size (cat : Catalog) (relation : RelationInfo) :
    Except String RelSizeEstimate := do
  let tuples ← CStoreTableRowCount cat relation.relNode
  .ok { tuples := tuples, allvisfrac := 1 }

/-- Function `cstore_tuple_delete` (`cstore_tableam.c:411`): unconditionally
`elog(ERROR, ...)`; no result, no state change. -/
def cstore_tuple_delete (relation : RelationInfo) (tid : Nat) (g : GlobalState) :
    Except String GlobalState :=
  .error "cstore_tuple_delete not implemented"

/-- Function `cstore_tuple_update` (`cstore_tableam.c:420`): unconditionally
`elog(ERROR, ...)`; no result, no state change. -/
def cstore_tuple_update (relation : RelationInfo) (otid : Nat) (slot : TupleSlot)
    (g : GlobalState) : Except String GlobalState :=
  .error "cstore_tuple_update not implemented"

/-- Function `cstore_relation_set_new_filenode` (`cstore_tableam.c:451`): read any
existing metadata (missing ok); take the block-row-count from it when
present, otherwise from the session options; delete the old relfilenode
metadata and create the entry for the new relfilenode. -/
def cstore_relation_set_new_filenode (rel : RelationInfo) (newRelNode : Nat)
    (opts : CStoreOptions) (cat : Catalog) : Except String Catalog := do
  let metadata ← ReadDataFileMetadata cat rel.relNode true
  let blockRowCount := match metadata with
    | some m => m.blockRowCount
    | none => opts.blockRowCount
  let cat := DeleteDataFileMetadataRowIfExists cat rel.relNode
  .ok (InitCStoreDataFileMetadata cat newRelNode blockRowCount)

/-- Function `cstore_relation_nontransactional_truncate` (`cstore_tableam.c:486`):
read the existing metadata (missing not ok), then delete and recreate the
entry with the previously recorded block-row-count. -/
def cstore_relation_nontransactional_truncate (rel : RelationInfo) (cat : Catalog) :
    Except String Catalog := do
  let metadata ← ReadDataFileMetadata cat rel.relNode false
  match metadata with
  | none => .error "NotFoundError"
  | some m =>
    let cat := DeleteDataFileMetadataRowIfExists cat rel.relNode
    .ok (InitCStoreDataFileMetadata cat rel.relNode m.blockRowCount)

/-- The object access types of the host's `object_access_hook`. -/
inductive ObjectAccessType
  | OAT_POST_CREATE
  | OAT_DROP
  | OAT_POST_ALTER
  | OAT_NAMESPACE_SEARCH
  | OAT_FUNCTION_EXECUTE
  | OAT_TRUNCATE
deriving DecidableEq, Repr

/-- Constant `RelationRelationId`: the oid of `pg_class`. -/
def RelationRelationId : Nat := 1259

/-- The host-side facts the object access hook consults: which relations use
the cstore table access method (`rd_tableam == GetCstoreTableAmRoutine()`)
and each relation's relfilenode. -/
structure HookEnv where
  isCstoreAm : Nat → Bool
  relNodeOf : Nat → Nat

/-- Function `IsCStoreTableAmTable` (`cstore_tableam.c:813`): false for an invalid
oid, otherwise whether the relation's table access method is cstore. -/
def IsCStoreTableAmTable (env : HookEnv) (relationId : Nat) : Bool :=
  if relationId = 0 then false else env.isCstoreAm relationId

/-- Function `CStoreTableAMObjectAccessHook` (`cstore_tableam.c:770`): only on a
`OAT_DROP` of a whole relation (`pg_class` class id, invalid sub-object id)
of a cstore table does it delete the relation's metadata row. -/
def CStoreTableAMObjectAccessHook (env : HookEnv) (access : ObjectAccessType)
    (classId objectId subId : Nat) (cat : Catalog) : Catalog :=
  if access ≠ ObjectAccessType.OAT_DROP ∨ classId ≠ RelationRelationId ∨ subId ≠ 0 then
    cat
  else if IsCStoreTableAmTable env objectId then
    DeleteDataFileMetadataRowIfExists cat (env.relNodeOf objectId)
  else cat

/-- The stripe list the metadata catalog records for a relfilenode (empty
when no entry exists). -/
def stripesOf (cat : Catalog) (relNode : Nat) : List StripeDescriptor :=
  match cat relNode with
  | some m => m.stripes
  | none => []

/-- All rows of a relation as a full scan decodes them: every stripe in
catalog order, decoded with projection `proj`, concatenated. -/
def decodedAll (natts : Nat) (proj : List Nat) (cat : Catalog) (relNode : Nat) :
    List Row :=
  ((stripesOf cat relNode).map (decodeStripe natts proj)).flatten

/-- A sequence of `CStoreWriteRow` calls against one write state. -/
def writeRows (ws : TableWriteState) (cat : Catalog) (rows : List Row) :
    TableWriteState × Catalog :=
  rows.foldl (fun p row => CStoreWriteRow p.1 p.2 row) (ws, cat)

/-- What has been written for a relfilenode: the stripes registered in the
catalog plus the rows still buffered in an open write state for it. -/
def writtenState (g : GlobalState) (relNode : Nat) :
    List StripeDescriptor × List Row :=
  (stripesOf g.catalog relNode,
   match g.writeState with
   | some ws => if ws.relation.relNode = relNode then ws.stripeBuffer else []
   | none => [])

/-- The round-trip scenario via `cstore_tuple_insert`: starting with no open
write state, insert every slot in order, end the write with
`cstore_finish_bulk_insert`, then run a full sequential scan. -/
def insertAndScan (rel : RelationInfo) (opts : CStoreOptions)
    (slots : List TupleSlot) (cat0 : Catalog) : Except String (List Row) := do
  let g1 ← slots.foldlM (fun g s => cstore_tuple_insert rel s opts g)
    ({ catalog := cat0, writeState := none } : GlobalState)
  let g2 := cstore_finish_bulk_insert g1
  let scan ← cstore_beginscan rel g2.catalog
  .ok (collectScanRows scan)

/-- The round-trip scenario via `cstore_multi_insert`: starting with no open
write state, insert all slots at once, end the write, then run a full
sequential scan. -/
def multiInsertAndScan (rel : RelationInfo) (opts : CStoreOptions)
    (slots : List TupleSlot) (cat0 : Catalog) : Except String (List Row) := do
  let g1 ← cstore_multi_insert rel slots opts
    ({ catalog := cat0, writeState := none } : GlobalState)
  let g2 := cstore_finish_bulk_insert g1
  let scan ← cstore_beginscan rel g2.catalog
  .ok (collectScanRows scan)

/- ### Concrete example data (used by the witnesses) ### -/

/-- An example relation with two live attributes. -/
def relEx : RelationInfo :=
  { rd_id := 101, relNode := 5001, tupdesc := [⟨23, false⟩, ⟨25, false⟩] }

/-- A second example relation, distinct from `relEx`. -/
def relOtherEx : RelationInfo :=
  { rd_id := 202, relNode := 5002, tupdesc := [⟨23, false⟩] }

/-- An example relation with a dropped middle attribute. -/
def relDropEx : RelationInfo :=
  { rd_id := 103, relNode := 5003, tupdesc := [⟨23, false⟩, ⟨25, true⟩, ⟨16, false⟩] }

/-- Example session options: stripe row count 4, block row count 2. -/
def optsEx : CStoreOptions :=
  { compressionType := .noCompression, stripeRowCount := 4, blockRowCount := 2 }

/-- Five example slots (the third one with an externally stored attribute,
the fourth one with a null cell). -/
def slotsEx : List TupleSlot :=
  [{ cells := [(1, false), (97, false)], hasExternal := false },
   { cells := [(2, false), (98, false)], hasExternal := false },
   { cells := [(3, false), (99, false)], hasExternal := true },
   { cells := [(4, false), (0, true)], hasExternal := false },
   { cells := [(5, false), (101, false)], hasExternal := false }]

/-- One example slot. -/
def slotEx : TupleSlot := { cells := [(1, false), (97, false)], hasExternal := false }

/-- An example metadata entry with no stripes yet. -/
def m0Ex : DataFileMetadata := { blockRowCount := 2, stripes := [] }

/-- A catalog holding only the freshly initialized entry of `relEx`. -/
def catEx : Catalog := InitCStoreDataFileMetadata (fun _ => none) 5001 2

/-- An example stripe of two rows. -/
def stripeEx : StripeDescriptor :=
  buildStripe 2 2 [[(1, false), (97, false)], [(2, false), (98, false)]]

/-- An example metadata entry with one stripe and a block row count that
differs from the session options. -/
def mFullEx : DataFileMetadata := { blockRowCount := 7, stripes := [stripeEx] }

/-- A catalog in which `relEx` already has one stripe. -/
def catFullEx : Catalog := fun r => if r = 5001 then some mFullEx else none

/-- An example catalog entry for `relDropEx` (no stripes). -/
def catDropEx : Catalog := InitCStoreDataFileMetadata (fun _ => none) 5003 10

/-- An example open write state for `relEx`. -/
def wsEx : TableWriteState :=
  { relation := relEx, compressionType := .noCompression, stripeRowCount := 4,
    blockRowCount := 2, tupleDescriptor := relEx.tupdesc, stripeBuffer := [] }

/-- A global state with no open write state. -/
def gNoneEx : GlobalState := { catalog := catEx, writeState := none }

/-- A global state with an open write state for `relEx`. -/
def gOpenEx : GlobalState := { catalog := catEx, writeState := some wsEx }

/-- The expected scan descriptor for a full scan of `relDropEx` over
`catDropEx`. -/
def scanDropEx : CStoreScanDescData :=
  { cs_readState :=
      { projectedColumnList := RelationColumnList relDropEx.tupdesc
        whereClauseList := none
        remainingRows := [] } }

/-- The host-side environment for the object access hook examples: relation
101 uses the cstore table access method, everything maps to relfilenode
5001. -/
def envEx : HookEnv :=
  { isCstoreAm := fun o => o == 101, relNodeOf := fun _ => 5001 }

/- ### Proofs ### -/

theorem flatten_chunkListFuel (fuel b : Nat) (l : List α) :
    (chunkListFuel fuel b l).flatten = l := by
  induction fuel generalizing l with
  | zero =>
    by_cases h : l.isEmpty <;> simp [chunkListFuel, h]
    exact (List.isEmpty_iff.mp h)
  | succ fuel ih =>
    by_cases h : l.isEmpty
    · simp [chunkListFuel, h]
      exact (List.isEmpty_iff.mp h)
    · simp [chunkListFuel, h, ih]

theorem flatten_chunkList (b : Nat) (l : List α) : (chunkList b l).flatten = l :=
  flatten_chunkListFuel l.length b l
theorem mem_of_mem_chunkList {b : Nat} {l : List α} {c : List α} {x : α}
    (hc : c ∈ chunkList b l) (hx : x ∈ c) : x ∈ l := by
  have : x ∈ (chunkList b l).flatten := List.mem_flatten.mpr ⟨c, hc, hx⟩
  rwa [flatten_chunkList] at this
theorem getD_of_lt (l : List α) (d : α) (i : Nat) (h : i < l.length) :
    l.getD i d = l[i] := by
  simp [List.getD_eq_getElem?_getD, List.getElem?_eq_getElem h]
theorem decodeStripeBlock_encodeStripeBlock (natts : Nat) (proj : List Nat)
    (rows : List Row)
    (hrect : ∀ r ∈ rows, r.length = natts)
    (hproj : ∀ j < natts, proj.contains (j + 1) = true) :
    decodeStripeBlock natts proj (encodeStripeBlock natts rows) = rows := by
  unfold decodeStripeBlock encodeStripeBlock
  apply List.ext_getElem
  · simp
  · intro i h1 h2
    simp only [List.getElem_map, List.getElem_range]
    simp only [List.length_map, List.length_range] at h1
    apply List.ext_getElem
    · simp [hrect rows[i] (List.getElem_mem h2)]
    · intro j hj1 hj2
      simp only [List.length_map, List.length_range] at hj1
      simp only [List.getElem_map, List.getElem_range]
      rw [hproj j hj1]
      simp only [if_pos rfl]
      rw [getD_of_lt _ _ j (by simpa using hj1)]
      simp only [List.getElem_map, List.getElem_range]
      rw [getD_of_lt _ _ i (by simpa using h2)]
      simp only [List.getElem_map]
      rw [getD_of_lt _ _ j (by rw [hrect rows[i] (List.getElem_mem h2)]; exact hj1)]
      simp
theorem decodeStripe_buildStripe (natts b : Nat) (proj : List Nat)
    (rows : List Row)
    (hrect : ∀ r ∈ rows, r.length = natts)
    (hproj : ∀ j < natts, proj.contains (j + 1) = true) :
    decodeStripe natts proj (buildStripe natts b rows) = rows := by
  unfold decodeStripe buildStripe
  simp only [List.map_map]
  have : ((chunkList b rows).map
      (decodeStripeBlock natts proj ∘ encodeStripeBlock natts)) = chunkList b rows := by
    apply List.map_congr_left ?_ |>.trans (List.map_id _)
    intro c hc
    exact decodeStripeBlock_encodeStripeBlock natts proj c
      (fun r hr => hrect r (mem_of_mem_chunkList hc hr)) hproj
  rw [this, flatten_chunkList]

theorem CStoreWriteRow_fst_relation (ws : TableWriteState) (cat : Catalog) (row : Row) :
    (CStoreWriteRow ws cat row).1.relation = ws.relation := by
  unfold CStoreWriteRow
  by_cases h : ws.stripeRowCount ≤ ws.stripeBuffer.length + 1 <;> simp [h]

theorem CStoreWriteRow_fst_tupleDescriptor (ws : TableWriteState) (cat : Catalog)
    (row : Row) :
    (CStoreWriteRow ws cat row).1.tupleDescriptor = ws.tupleDescriptor := by
  unfold CStoreWriteRow
  by_cases h : ws.stripeRowCount ≤ ws.stripeBuffer.length + 1 <;> simp [h]

theorem AppendStripeMetadata_isSome (cat : Catalog) (relNode : Nat)
    (s : StripeDescriptor) (h : (cat relNode).isSome = true) :
    ((AppendStripeMetadata cat relNode s) relNode).isSome = true := by
  simp [AppendStripeMetadata, h]

theorem stripesOf_AppendStripeMetadata (cat : Catalog) (relNode : Nat)
    (s : StripeDescriptor) (h : (cat relNode).isSome = true) :
    stripesOf (AppendStripeMetadata cat relNode s) relNode = stripesOf cat relNode ++ [s] := by
  obtain ⟨m, hm⟩ := Option.isSome_iff_exists.mp h
  simp [stripesOf, AppendStripeMetadata, hm]

theorem decodedAll_AppendStripeMetadata (natts : Nat) (proj : List Nat)
    (cat : Catalog) (relNode : Nat) (s : StripeDescriptor)
    (h : (cat relNode).isSome = true) :
    decodedAll natts proj (AppendStripeMetadata cat relNode s) relNode
      = decodedAll natts proj cat relNode ++ decodeStripe natts proj s := by
  unfold decodedAll
  rw [stripesOf_AppendStripeMetadata cat relNode s h]
  simp

theorem writeRows_nil (ws : TableWriteState) (cat : Catalog) :
    writeRows ws cat [] = (ws, cat) :=
  rfl

theorem writeRows_cons (ws : TableWriteState) (cat : Catalog) (row : Row)
    (rows : List Row) :
    writeRows ws cat (row :: rows)
      = writeRows (CStoreWriteRow ws cat row).1 (CStoreWriteRow ws cat row).2 rows := by
  simp [writeRows, List.foldl_cons]

theorem slot_getallattrs_flatten (slot : TupleSlot) :
    slot_getallattrs (if slot.hasExternal then toast_flatten_slot slot else slot)
      = slot.cells := by
  cases h : slot.hasExternal <;> simp [slot_getallattrs, toast_flatten_slot, h]

theorem collectScanRowsFuel_eq (fuel : Nat) (scan : CStoreScanDescData)
    (h : scan.cs_readState.remainingRows.length = fuel) :
    collectScanRowsFuel fuel scan = scan.cs_readState.remainingRows := by
  induction fuel generalizing scan with
  | zero =>
    rw [List.length_eq_zero] at h
    simp [collectScanRowsFuel, h]
  | succ fuel ih =>
    match hrem : scan.cs_readState.remainingRows with
    | [] => rw [hrem] at h; simp at h
    | r :: rest =>
      have hnext : cstore_getnextslot scan
          = some (r, { cs_readState := { scan.cs_readState with remainingRows := rest } }) := by
        simp [cstore_getnextslot, CStoreReadNextRow, hrem]
      rw [hrem] at h
      simp only [List.length_cons, Nat.succ.injEq] at h
      simp only [collectScanRowsFuel, hnext]
      exact congrArg (fun l => r :: l) (ih _ h)

theorem collectScanRows_eq (scan : CStoreScanDescData) :
    collectScanRows scan = scan.cs_readState.remainingRows :=
  collectScanRowsFuel_eq _ scan rfl

theorem cstore_beginscan_spec (rel : RelationInfo) (cat : Catalog)
    (h : (cat rel.relNode).isSome = true) :
    cstore_beginscan rel cat
      = .ok { cs_readState :=
          { projectedColumnList := RelationColumnList rel.tupdesc
            whereClauseList := none
            remainingRows :=
              decodedAll rel.tupdesc.length
                ((RelationColumnList rel.tupdesc).map Var.varattno) cat rel.relNode } } := by
  obtain ⟨m, hm⟩ := Option.isSome_iff_exists.mp h
  simp [cstore_beginscan, CStoreBeginRead, hm, decodedAll, stripesOf, Bind.bind, Except.bind]

theorem CStoreWriteRow_eq (ws : TableWriteState) (cat : Catalog) (row : Row) :
    (ws.stripeRowCount ≤ ws.stripeBuffer.length + 1 ∧
      CStoreWriteRow ws cat row
        = ({ ws with stripeBuffer := [] },
           AppendStripeMetadata cat ws.relation.relNode
             (buildStripe ws.tupleDescriptor.length ws.blockRowCount
               (ws.stripeBuffer ++ [row])))) ∨
    (¬ ws.stripeRowCount ≤ ws.stripeBuffer.length + 1 ∧
      CStoreWriteRow ws cat row
        = ({ ws with stripeBuffer := ws.stripeBuffer ++ [row] }, cat)) := by
  by_cases h : ws.stripeRowCount ≤ ws.stripeBuffer.length + 1
  · exact Or.inl ⟨h, by simp [CStoreWriteRow, h]⟩
  · exact Or.inr ⟨h, by simp [CStoreWriteRow, h]⟩

theorem writeRows_endWrite (natts : Nat) (proj : List Nat)
    (hproj : ∀ j < natts, proj.contains (j + 1) = true) :
    ∀ (rows : List Row) (ws : TableWriteState) (cat : Catalog),
      ws.tupleDescriptor.length = natts →
      (cat ws.relation.relNode).isSome = true →
      (∀ r ∈ ws.stripeBuffer, r.length = natts) →
      (∀ r ∈ rows, r.length = natts) →
      (writeRows ws cat rows).1.relation = ws.relation ∧
      ((CStoreEndWrite (writeRows ws cat rows).1 (writeRows ws cat rows).2)
          ws.relation.relNode).isSome = true ∧
      decodedAll natts proj
          (CStoreEndWrite (writeRows ws cat rows).1 (writeRows ws cat rows).2)
          ws.relation.relNode
        = decodedAll natts proj cat ws.relation.relNode ++ ws.stripeBuffer ++ rows := by
  intro rows
  induction rows with
  | nil =>
    intro ws cat htd hsome hbuf _
    rw [writeRows_nil]
    by_cases hemp : ws.stripeBuffer.isEmpty
    · have hb : ws.stripeBuffer = [] := List.isEmpty_iff.mp hemp
      refine ⟨rfl, ?_, ?_⟩ <;> simp [CStoreEndWrite, hemp, hsome, hb]
    · refine ⟨rfl, ?_, ?_⟩
      · simp only [CStoreEndWrite, hemp, Bool.false_eq_true, if_false]
        exact AppendStripeMetadata_isSome _ _ _ hsome
      · simp only [CStoreEndWrite, hemp, Bool.false_eq_true, if_false]
        rw [decodedAll_AppendStripeMetadata natts proj _ _ _ hsome, htd,
          decodeStripe_buildStripe natts _ proj _ hbuf hproj]
        simp
  | cons row rows ih =>
    intro ws cat htd hsome hbuf hrows
    have hrowlen : row.length = natts := hrows row (List.mem_cons_self row rows)
    have hrowslen : ∀ r ∈ rows, r.length = natts :=
      fun r hr => hrows r (List.mem_cons_of_mem _ hr)
    rcases CStoreWriteRow_eq ws cat row with ⟨hfl, heq⟩ | ⟨hfl, heq⟩
    · have hrect : ∀ r ∈ ws.stripeBuffer ++ [row], r.length = natts := by
        intro r hr
        rcases List.mem_append.mp hr with h | h
        · exact hbuf r h
        · simp at h; subst h; exact hrowlen
      have hsome1 : ((AppendStripeMetadata cat ws.relation.relNode
          (buildStripe ws.tupleDescriptor.length ws.blockRowCount
            (ws.stripeBuffer ++ [row]))) ws.relation.relNode).isSome = true :=
        AppendStripeMetadata_isSome _ _ _ hsome
      have := ih { ws with stripeBuffer := [] }
        (AppendStripeMetadata cat ws.relation.relNode
          (buildStripe ws.tupleDescriptor.length ws.blockRowCount
            (ws.stripeBuffer ++ [row])))
        htd hsome1 (by simp) hrowslen
      rw [writeRows_cons, heq]
      refine ⟨this.1, this.2.1, ?_⟩
      rw [this.2.2]
      rw [decodedAll_AppendStripeMetadata natts proj _ _ _ hsome, htd,
        decodeStripe_buildStripe natts _ proj _ hrect hproj]
      simp
    · have hrect : ∀ r ∈ ws.stripeBuffer ++ [row], r.length = natts := by
        intro r hr
        rcases List.mem_append.mp hr with h | h
        · exact hbuf r h
        · simp at h; subst h; exact hrowlen
      have := ih { ws with stripeBuffer := ws.stripeBuffer ++ [row] } cat
        htd hsome hrect hrowslen
      rw [writeRows_cons, heq]
      refine ⟨this.1, this.2.1, ?_⟩
      rw [this.2.2]
      simp

theorem cstore_tuple_insert_open (rel : RelationInfo) (opts : CStoreOptions)
    (slot : TupleSlot) (ws : TableWriteState) (cat : Catalog)
    (h : ws.relation.rd_id = rel.rd_id) :
    cstore_tuple_insert rel slot opts { catalog := cat, writeState := some ws }
      = .ok { catalog := (CStoreWriteRow ws cat slot.cells).2,
              writeState := some (CStoreWriteRow ws cat slot.cells).1 } := by
  simp [cstore_tuple_insert, cstore_init_write_state, h, Bind.bind, Except.bind,
    slot_getallattrs_flatten]

theorem foldlM_tuple_insert (rel : RelationInfo) (opts : CStoreOptions) :
    ∀ (slots : List TupleSlot) (ws : TableWriteState) (cat : Catalog),
      ws.relation.rd_id = rel.rd_id →
      slots.foldlM (fun g s => cstore_tuple_insert rel s opts g)
          ({ catalog := cat, writeState := some ws } : GlobalState)
        = .ok { catalog := (writeRows ws cat (slots.map TupleSlot.cells)).2,
                writeState := some (writeRows ws cat (slots.map TupleSlot.cells)).1 } := by
  intro slots
  induction slots with
  | nil =>
    intro ws cat h
    simp [List.foldlM, writeRows_nil, pure, Except.pure]
  | cons s ss ih =>
    intro ws cat h
    have hrel : (CStoreWriteRow ws cat s.cells).1.relation.rd_id = rel.rd_id := by
      rw [CStoreWriteRow_fst_relation]; exact h
    rw [List.foldlM_cons, cstore_tuple_insert_open rel opts s ws cat h]
    show Except.bind _ _ = _
    rw [Except.bind, ih _ _ hrel, List.map_cons, writeRows_cons]

theorem cstore_multi_insert_step_open (ws : TableWriteState) (cat : Catalog)
    (slot : TupleSlot) :
    cstore_multi_insert_step { catalog := cat, writeState := some ws } slot
      = { catalog := (CStoreWriteRow ws cat slot.cells).2,
          writeState := some (CStoreWriteRow ws cat slot.cells).1 } := by
  simp [cstore_multi_insert_step, slot_getallattrs_flatten]

theorem foldl_multi_insert_step :
    ∀ (slots : List TupleSlot) (ws : TableWriteState) (cat : Catalog),
      slots.foldl cstore_multi_insert_step
          ({ catalog := cat, writeState := some ws } : GlobalState)
        = { catalog := (writeRows ws cat (slots.map TupleSlot.cells)).2,
            writeState := some (writeRows ws cat (slots.map TupleSlot.cells)).1 } := by
  intro slots
  induction slots with
  | nil => intro ws cat; simp [writeRows_nil]
  | cons s ss ih =>
    intro ws cat
    rw [List.foldl_cons, cstore_multi_insert_step_open, ih, List.map_cons, writeRows_cons]

theorem RelationColumnListFrom_map_varattno (d : AttrInfo) :
    ∀ (td : TupleDesc) (k : Nat),
      (RelationColumnListFrom k td).map Var.varattno
        = ((List.range td.length).filter
            (fun i => !(td.getD i d).attisdropped)).map (fun i => i + k + 1) := by
  intro td
  induction td with
  | nil => intro k; simp [RelationColumnListFrom]
  | cons a rest ih =>
    intro k
    rw [List.length_cons, List.range_succ_eq_map]
    by_cases h : a.attisdropped
    · have hif : RelationColumnListFrom k (a :: rest) = RelationColumnListFrom (k + 1) rest := by
        simp [RelationColumnListFrom, h]
      rw [hif, ih (k + 1)]
      rw [List.filter_cons]
      have h0 : (!((a :: rest).getD 0 d).attisdropped) = false := by
        simp [List.getD_cons_zero, h]
      rw [h0]
      simp only [Bool.false_eq_true, if_false]
      rw [List.filter_map, List.map_map]
      apply List.map_congr_left
      intro i hi
      simp only [Function.comp]
      omega
    · have hif : RelationColumnListFrom k (a :: rest)
          = { varattno := k + 1, vartype := a.atttypid } :: RelationColumnListFrom (k + 1) rest := by
        simp [RelationColumnListFrom, h]
      rw [hif, List.map_cons, ih (k + 1)]
      rw [List.filter_cons]
      have h0 : (!((a :: rest).getD 0 d).attisdropped) = true := by
        simp [List.getD_cons_zero, h]
      rw [h0]
      simp only [if_true]
      rw [List.map_cons]
      congr 1
      · omega
      · rw [List.filter_map, List.map_map]
        apply List.map_congr_left
        intro i hi
        simp only [Function.comp]
        omega

theorem RelationColumnList_map_varattno (d : AttrInfo) (td : TupleDesc) :
    (RelationColumnList td).map Var.varattno
      = ((List.range td.length).filter
          (fun i => !(td.getD i d).attisdropped)).map (fun i => i + 1) := by
  have := RelationColumnListFrom_map_varattno d td 0
  simpa [RelationColumnList] using this

theorem RelationColumnListFrom_mem (d : AttrInfo) :
    ∀ (td : TupleDesc) (k : Nat) (v : Var), v ∈ RelationColumnListFrom k td →
      k + 1 ≤ v.varattno ∧ v.varattno ≤ k + td.length ∧
      v.vartype = (td.getD (v.varattno - k - 1) d).atttypid ∧
      (td.getD (v.varattno - k - 1) d).attisdropped = false := by
  intro td
  induction td with
  | nil => intro k v h; simp [RelationColumnListFrom] at h
  | cons a rest ih =>
    intro k v h
    simp only [RelationColumnListFrom] at h
    by_cases hd : a.attisdropped
    · rw [if_pos hd] at h
      obtain ⟨h1, h2, h3, h4⟩ := ih (k + 1) v h
      have hidx : v.varattno - k - 1 = (v.varattno - (k + 1) - 1) + 1 := by omega
      refine ⟨by omega, by simpa [Nat.add_comm, Nat.add_left_comm] using by omega, ?_, ?_⟩
      · rw [hidx, List.getD_cons_succ]; exact h3
      · rw [hidx, List.getD_cons_succ]; exact h4
    · rw [if_neg hd] at h
      rcases List.mem_cons.mp h with hv | hv
      · subst hv
        refine ⟨Nat.le_refl _, by simp, ?_, ?_⟩
        · simp [List.getD_cons_zero]
        · simp [List.getD_cons_zero, hd]
      · obtain ⟨h1, h2, h3, h4⟩ := ih (k + 1) v hv
        have hidx : v.varattno - k - 1 = (v.varattno - (k + 1) - 1) + 1 := by omega
        refine ⟨by omega, by simp; omega, ?_, ?_⟩
        · rw [hidx, List.getD_cons_succ]; exact h3
        · rw [hidx, List.getD_cons_succ]; exact h4

theorem RelationColumnList_nodrop_proj (td : TupleDesc)
    (hnodrop : ∀ a ∈ td, a.attisdropped = false) :
    ∀ j < td.length,
      ((RelationColumnList td).map Var.varattno).contains (j + 1) = true := by
  intro j hj
  rw [RelationColumnList_map_varattno ⟨0, false⟩ td]
  have hfil : (List.range td.length).filter
      (fun i => !(td.getD i ⟨0, false⟩).attisdropped) = List.range td.length := by
    apply List.filter_eq_self.mpr
    intro i hi
    rw [List.mem_range] at hi
    rw [getD_of_lt _ _ i hi]
    simp [hnodrop td[i] (List.getElem_mem hi)]
  rw [hfil]
  have hmem : j + 1 ∈ (List.range td.length).map (fun i => i + 1) :=
    List.mem_map.mpr ⟨j, List.mem_range.mpr hj, rfl⟩
  exact List.elem_eq_true_of_mem hmem

theorem decodedAll_of_empty (natts : Nat) (proj : List Nat) (cat : Catalog)
    (relNode : Nat) (m : DataFileMetadata) (hmeta : cat relNode = some m)
    (hempty : m.stripes = []) :
    decodedAll natts proj cat relNode = [] := by
  simp [decodedAll, stripesOf, hmeta, hempty]

/-- After a sequence of `CStoreWriteRow` calls from a fresh write state over
an initially stripe-less catalog entry, ending the write and running a full
sequential scan yields exactly the written rows. -/
theorem write_finish_scan (rel : RelationInfo) (opts : CStoreOptions)
    (slots : List TupleSlot) (cat0 : Catalog) (m0 : DataFileMetadata)
    (hmeta : cat0 rel.relNode = some m0) (hempty : m0.stripes = [])
    (hrect : ∀ s ∈ slots, s.cells.length = rel.tupdesc.length)
    (hnodrop : ∀ a ∈ rel.tupdesc, a.attisdropped = false)
    (ws0 : TableWriteState)
    (hws0 : ws0 = { relation := rel, compressionType := opts.compressionType,
                    stripeRowCount := opts.stripeRowCount,
                    blockRowCount := opts.blockRowCount,
                    tupleDescriptor := rel.tupdesc, stripeBuffer := [] }) :
    ∃ scan,
      cstore_beginscan rel
          (CStoreEndWrite (writeRows ws0 cat0 (slots.map TupleSlot.cells)).1
            (writeRows ws0 cat0 (slots.map TupleSlot.cells)).2)
        = .ok scan ∧
      collectScanRows scan = slots.map TupleSlot.cells := by
  subst hws0
  have hproj : ∀ j < rel.tupdesc.length,
      ((RelationColumnList rel.tupdesc).map Var.varattno).contains (j + 1) = true :=
    RelationColumnList_nodrop_proj rel.tupdesc hnodrop
  have hrows : ∀ r ∈ slots.map TupleSlot.cells, r.length = rel.tupdesc.length := by
    intro r hr
    obtain ⟨s, hs, rfl⟩ := List.mem_map.mp hr
    exact hrect s hs
  have hsome0 : (cat0 rel.relNode).isSome = true := by rw [hmeta]; rfl
  obtain ⟨hrel, hsomeF, hdec⟩ :=
    writeRows_endWrite rel.tupdesc.length
      ((RelationColumnList rel.tupdesc).map Var.varattno) hproj
      (slots.map TupleSlot.cells)
      { relation := rel, compressionType := opts.compressionType,
        stripeRowCount := opts.stripeRowCount, blockRowCount := opts.blockRowCount,
        tupleDescriptor := rel.tupdesc, stripeBuffer := [] }
      cat0 rfl hsome0 (by simp) hrows
  refine ⟨_, cstore_beginscan_spec rel _ hsomeF, ?_⟩
  rw [collectScanRows_eq]
  rw [decodedAll_of_empty _ _ cat0 rel.relNode m0 hmeta hempty] at hdec
  simpa using hdec

/-- C1: every sequence of rows inserted through `cstore_tuple_insert` or
`cstore_multi_insert` and flushed by ending the write is returned by a
subsequent full sequential scan (`cstore_beginscan` + repeated
`cstore_getnextslot`) with the same values and null flags, in insertion
order. -/
theorem c1_write_read_roundtrip (rel : RelationInfo) (opts : CStoreOptions)
    (slots : List TupleSlot) (cat0 : Catalog) (m0 : DataFileMetadata)
    (hmeta : cat0 rel.relNode = some m0) (hempty : m0.stripes = [])
    (hrect : ∀ s ∈ slots, s.cells.length = rel.tupdesc.length)
    (hnodrop : ∀ a ∈ rel.tupdesc, a.attisdropped = false) :
    insertAndScan rel opts slots cat0 = .ok (slots.map TupleSlot.cells) ∧
    multiInsertAndScan rel opts slots cat0 = .ok (slots.map TupleSlot.cells) := by
  have hinit : cstore_init_write_state rel opts { catalog := cat0, writeState := none }
      = .ok { catalog := cat0,
              writeState := some
                { relation := rel, compressionType := opts.compressionType,
                  stripeRowCount := opts.stripeRowCount,
                  blockRowCount := opts.blockRowCount,
                  tupleDescriptor := rel.tupdesc, stripeBuffer := [] } } := by
    simp [cstore_init_write_state, CStoreBeginWrite, hmeta]
  obtain ⟨scan, hbs, hcol⟩ :=
    write_finish_scan rel opts slots cat0 m0 hmeta hempty hrect hnodrop _ rfl
  constructor
  · match slots, hrect with
    | [], _ =>
      have hsome0 : (cat0 rel.relNode).isSome = true := by rw [hmeta]; rfl
      rw [insertAndScan]
      simp only [List.foldlM_nil, List.map_nil]
      simp only [pure, Except.pure, Bind.bind, Except.bind]
      simp only [cstore_finish_bulk_insert, cstore_free_write_state]
      rw [cstore_beginscan_spec rel cat0 hsome0]
      simp [collectScanRows_eq, decodedAll_of_empty _ _ cat0 rel.relNode m0 hmeta hempty]
    | s :: ss, hrect =>
      have hti : cstore_tuple_insert rel s opts { catalog := cat0, writeState := none }
          = .ok { catalog :=
                    (CStoreWriteRow
                      { relation := rel, compressionType := opts.compressionType,
                        stripeRowCount := opts.stripeRowCount,
                        blockRowCount := opts.blockRowCount,
                        tupleDescriptor := rel.tupdesc, stripeBuffer := [] }
                      cat0 s.cells).2,
                  writeState := some
                    (CStoreWriteRow
                      { relation := rel, compressionType := opts.compressionType,
                        stripeRowCount := opts.stripeRowCount,
                        blockRowCount := opts.blockRowCount,
                        tupleDescriptor := rel.tupdesc, stripeBuffer := [] }
                      cat0 s.cells).1 } := by
        rw [cstore_tuple_insert, hinit]
        simp only [Bind.bind, Except.bind]
        simp [slot_getallattrs_flatten]
      rw [insertAndScan, List.foldlM_cons, hti]
      simp only [Bind.bind, Except.bind]
      rw [foldlM_tuple_insert rel opts ss _ _ (by rw [CStoreWriteRow_fst_relation])]
      rw [← writeRows_cons, ← List.map_cons]
      simp only [cstore_finish_bulk_insert, cstore_free_write_state]
      rw [hbs]
      simp [hcol]
  · rw [multiInsertAndScan, cstore_multi_insert, hinit]
    simp only [Bind.bind, Except.bind]
    rw [foldl_multi_insert_step]
    simp only [cstore_finish_bulk_insert, cstore_free_write_state]
    rw [hbs]
    simp [hcol]

/-- C1 witness: the spec §8 scenario (block row count 2, stripe row count 4,
five rows, one externally stored attribute, one null cell) round-trips on
both insert paths. -/
theorem c1_write_read_roundtrip_witness :
    insertAndScan relEx optsEx slotsEx catEx = .ok (slotsEx.map TupleSlot.cells) ∧
    multiInsertAndScan relEx optsEx slotsEx catEx = .ok (slotsEx.map TupleSlot.cells) :=
  c1_write_read_roundtrip relEx optsEx slotsEx catEx m0Ex (by decide) (by decide)
    (by decide) (by decide)

/-- C2: `cstore_init_write_state` reuses an already-open write state for the
same relation unchanged, rejects (fails the `Assert`) an attempt while a
write state for a different relation is open, and after any successful call
exactly one write state is open and it belongs to the requested relation. -/
theorem c2_single_writer_invariant (rel : RelationInfo) (opts : CStoreOptions)
    (g : GlobalState) :
    (∀ ws, g.writeState = some ws → ws.relation.rd_id = rel.rd_id →
      cstore_init_write_state rel opts g = .ok g) ∧
    (∀ ws, g.writeState = some ws → ws.relation.rd_id ≠ rel.rd_id →
      cstore_init_write_state rel opts g
        = .error "Assert failed: CStoreWriteState is open for another relation") ∧
    (∀ g', cstore_init_write_state rel opts g = .ok g' →
      ∃ ws', g'.writeState = some ws' ∧ ws'.relation.rd_id = rel.rd_id ∧
        (g.writeState = none → ws'.stripeBuffer = [])) := by
  obtain ⟨cat, wsopt⟩ := g
  cases wsopt with
  | none =>
    refine ⟨?_, ?_, ?_⟩
    · intro ws h; cases h
    · intro ws h; cases h
    · intro g' h
      simp only [cstore_init_write_state] at h
      cases h
      exact ⟨(CStoreBeginWrite cat rel opts.compressionType opts.stripeRowCount
        opts.blockRowCount rel.tupdesc).1, rfl, rfl, fun _ => rfl⟩
  | some ws =>
    refine ⟨?_, ?_, ?_⟩
    · intro ws1 h1 h2
      cases h1
      simp [cstore_init_write_state, h2]
    · intro ws1 h1 h2
      cases h1
      simp [cstore_init_write_state, h2]
    · intro g' h
      simp only [cstore_init_write_state] at h
      by_cases hrd : ws.relation.rd_id = rel.rd_id
      · rw [if_pos hrd] at h
        cases h
        exact ⟨ws, rfl, hrd, fun hc => by cases hc⟩
      · rw [if_neg hrd] at h
        cases h

/-- C2 witness: with a write state open for `relEx`, a second attempt for
`relEx` reuses it unchanged and an attempt for another relation fails the
assertion. -/
theorem c2_single_writer_invariant_witness :
    cstore_init_write_state relEx optsEx gOpenEx = .ok gOpenEx ∧
    cstore_init_write_state relOtherEx optsEx gOpenEx
      = .error "Assert failed: CStoreWriteState is open for another relation" :=
  ⟨(c2_single_writer_invariant relEx optsEx gOpenEx).1 wsEx rfl rfl,
   (c2_single_writer_invariant relOtherEx optsEx gOpenEx).2.1 wsEx rfl (by decide)⟩

/-- C3: re-creating the storage of an existing relation
(`cstore_relation_set_new_filenode`) and non-transactional truncate both
replace the stripe list with an empty one while taking the block row count
from the prior metadata, not from the session options. -/
theorem c3_truncate_preserves_blockRowCount (rel : RelationInfo)
    (newRelNode : Nat) (opts : CStoreOptions) (cat : Catalog)
    (m : DataFileMetadata) (hmeta : cat rel.relNode = some m)
    (hne : newRelNode ≠ rel.relNode) :
    (∃ cat', cstore_relation_set_new_filenode rel newRelNode opts cat = .ok cat' ∧
      cat' newRelNode = some { blockRowCount := m.blockRowCount, stripes := [] } ∧
      cat' rel.relNode = none) ∧
    (∃ cat'', cstore_relation_nontransactional_truncate rel cat = .ok cat'' ∧
      cat'' rel.relNode = some { blockRowCount := m.blockRowCount, stripes := [] }) := by
  constructor
  · refine ⟨InitCStoreDataFileMetadata
      (DeleteDataFileMetadataRowIfExists cat rel.relNode) newRelNode m.blockRowCount,
      ?_, ?_, ?_⟩
    · simp [cstore_relation_set_new_filenode, ReadDataFileMetadata, hmeta,
        Bind.bind, Except.bind]
    · simp [InitCStoreDataFileMetadata]
    · simp [InitCStoreDataFileMetadata, DeleteDataFileMetadataRowIfExists, Ne.symm hne]
  · refine ⟨InitCStoreDataFileMetadata
      (DeleteDataFileMetadataRowIfExists cat rel.relNode) rel.relNode m.blockRowCount,
      ?_, ?_⟩
    · simp [cstore_relation_nontransactional_truncate, ReadDataFileMetadata, hmeta,
        Bind.bind, Except.bind]
    · simp [InitCStoreDataFileMetadata]

/-- C3 witness: on a catalog in which `relEx` already has one stripe and
block row count 7 (while the session options say 2), both operations leave
an empty stripe list with block row count 7. -/
theorem c3_truncate_preserves_blockRowCount_witness :
    (∃ cat', cstore_relation_set_new_filenode relEx 6001 optsEx catFullEx = .ok cat' ∧
      cat' 6001 = some { blockRowCount := mFullEx.blockRowCount, stripes := [] } ∧
      cat' relEx.relNode = none) ∧
    (∃ cat'', cstore_relation_nontransactional_truncate relEx catFullEx = .ok cat'' ∧
      cat'' relEx.relNode
        = some { blockRowCount := mFullEx.blockRowCount, stripes := [] }) :=
  c3_truncate_preserves_blockRowCount relEx 6001 optsEx catFullEx mFullEx
    (by decide) (by decide)

/-- C4: ending the write with no open write state is a no-op, and a second
`cstore_free_write_state` / `cstore_finish_bulk_insert` after the state has
been flushed and cleared changes nothing and registers no stripe. -/
theorem c4_end_write_idempotent (g : GlobalState) :
    (g.writeState = none → cstore_free_write_state g = g) ∧
    cstore_free_write_state (cstore_free_write_state g) = cstore_free_write_state g ∧
    cstore_finish_bulk_insert (cstore_finish_bulk_insert g)
      = cstore_finish_bulk_insert g := by
  obtain ⟨cat, wsopt⟩ := g
  cases wsopt with
  | none => exact ⟨fun _ => rfl, rfl, rfl⟩
  | some ws =>
    refine ⟨?_, ?_, ?_⟩
    · intro h; cases h
    · simp [cstore_free_write_state]
    · simp [cstore_free_write_state, cstore_finish_bulk_insert]

/-- C4 witness: freeing with no open state returns the state unchanged, and
freeing twice after an open state equals freeing once. -/
theorem c4_end_write_idempotent_witness :
    cstore_free_write_state gNoneEx = gNoneEx ∧
    cstore_free_write_state (cstore_free_write_state gOpenEx)
      = cstore_free_write_state gOpenEx :=
  ⟨(c4_end_write_idempotent gNoneEx).1 rfl,
   (c4_end_write_idempotent gOpenEx).2.1⟩

/-- C5: the object access hook deletes the metadata entry exactly on a whole
relation drop (`OAT_DROP`, `pg_class`, invalid sub-object id) of a cstore
table; any other access, sub-object drop, or non-cstore relation leaves the
catalog unchanged. -/
theorem c5_drop_hook_deletes_metadata (env : HookEnv) (access : ObjectAccessType)
    (classId objectId subId : Nat) (cat : Catalog) :
    (access = .OAT_DROP → classId = RelationRelationId → subId = 0 →
      IsCStoreTableAmTable env objectId = true →
      CStoreTableAMObjectAccessHook env access classId objectId subId cat
          = DeleteDataFileMetadataRowIfExists cat (env.relNodeOf objectId) ∧
        (CStoreTableAMObjectAccessHook env access classId objectId subId cat)
          (env.relNodeOf objectId) = none) ∧
    (IsCStoreTableAmTable env objectId = false →
      CStoreTableAMObjectAccessHook env access classId objectId subId cat = cat) ∧
    (subId ≠ 0 →
      CStoreTableAMObjectAccessHook env access classId objectId subId cat = cat) ∧
    (access ≠ .OAT_DROP →
      CStoreTableAMObjectAccessHook env access classId objectId subId cat = cat) ∧
    (classId ≠ RelationRelationId →
      CStoreTableAMObjectAccessHook env access classId objectId subId cat = cat) := by
  refine ⟨?_, ?_, ?_, ?_, ?_⟩
  · intro h1 h2 h3 h4
    subst h1; subst h2; subst h3
    constructor
    · simp [CStoreTableAMObjectAccessHook, h4]
    · simp [CStoreTableAMObjectAccessHook, h4, DeleteDataFileMetadataRowIfExists]
  · intro h
    by_cases hc : access ≠ ObjectAccessType.OAT_DROP ∨ classId ≠ RelationRelationId ∨
        subId ≠ 0
    · simp [CStoreTableAMObjectAccessHook, hc]
    · simp [CStoreTableAMObjectAccessHook, hc, h]
  · intro h; simp [CStoreTableAMObjectAccessHook, h]
  · intro h; simp [CStoreTableAMObjectAccessHook, h]
  · intro h; simp [CStoreTableAMObjectAccessHook, h]

/-- C5 witness: dropping cstore relation 101 removes its metadata row, while
a sub-object drop, a non-cstore relation, another access type and another
class leave the catalog unchanged. -/
theorem c5_drop_hook_deletes_metadata_witness :
    (CStoreTableAMObjectAccessHook envEx .OAT_DROP RelationRelationId 101 0 catFullEx
        = DeleteDataFileMetadataRowIfExists catFullEx (envEx.relNodeOf 101) ∧
      (CStoreTableAMObjectAccessHook envEx .OAT_DROP RelationRelationId 101 0 catFullEx)
        (envEx.relNodeOf 101) = none) ∧
    CStoreTableAMObjectAccessHook envEx .OAT_DROP RelationRelationId 202 0 catFullEx
      = catFullEx ∧
    CStoreTableAMObjectAccessHook envEx .OAT_DROP RelationRelationId 101 3 catFullEx
      = catFullEx ∧
    CStoreTableAMObjectAccessHook envEx .OAT_POST_CREATE RelationRelationId 101 0
      catFullEx = catFullEx ∧
    CStoreTableAMObjectAccessHook envEx .OAT_DROP 1247 101 0 catFullEx = catFullEx :=
  ⟨(c5_drop_hook_deletes_metadata envEx .OAT_DROP RelationRelationId 101 0
      catFullEx).1 rfl rfl rfl (by decide),
   (c5_drop_hook_deletes_metadata envEx .OAT_DROP RelationRelationId 202 0
      catFullEx).2.1 (by decide),
   (c5_drop_hook_deletes_metadata envEx .OAT_DROP RelationRelationId 101 3
      catFullEx).2.2.1 (by decide),
   (c5_drop_hook_deletes_metadata envEx .OAT_POST_CREATE RelationRelationId 101 0
      catFullEx).2.2.2.1 (by decide),
   (c5_drop_hook_deletes_metadata envEx .OAT_DROP 1247 101 0
      catFullEx).2.2.2.2 (by decide)⟩

/-- C6: `cstore_estimate_rel_size` reports as tuple count the sum of the
stripe row counts recorded in the metadata catalog; with zero stripes it
reports 0. -/
theorem c6_estimate_rel_size (cat : Catalog) (rel : RelationInfo)
    (m : DataFileMetadata) (hmeta : cat rel.relNode = some m) :
    cstore_estimate_rel_size cat rel
      = .ok { tuples := (m.stripes.map StripeDescriptor.rowCount).sum,
              allvisfrac := 1 } ∧
    (m.stripes = [] →
      cstore_estimate_rel_size cat rel = .ok { tuples := 0, allvisfrac := 1 }) := by
  constructor
  · simp [cstore_estimate_rel_size, CStoreTableRowCount, hmeta, Bind.bind, Except.bind]
  · intro h
    simp [cstore_estimate_rel_size, CStoreTableRowCount, hmeta, h, Bind.bind, Except.bind]

/-- C6 witness: with one two-row stripe the estimate is 2; with zero stripes
it is 0. -/
theorem c6_estimate_rel_size_witness :
    cstore_estimate_rel_size catFullEx relEx
      = .ok { tuples := (mFullEx.stripes.map StripeDescriptor.rowCount).sum,
              allvisfrac := 1 } ∧
    cstore_estimate_rel_size catEx relEx = .ok { tuples := 0, allvisfrac := 1 } :=
  ⟨(c6_estimate_rel_size catFullEx relEx mFullEx (by decide)).1,
   (c6_estimate_rel_size catEx relEx m0Ex (by decide)).2 rfl⟩

/-- C7: `cstore_tuple_delete` and `cstore_tuple_update` raise an error for
every input and never return a result state, so no stored row or metadata
entry is ever modified by them. -/
theorem c7_delete_update_unsupported (relation : RelationInfo) (tid otid : Nat)
    (slot : TupleSlot) (g : GlobalState) :
    cstore_tuple_delete relation tid g
      = .error "cstore_tuple_delete not implemented" ∧
    cstore_tuple_update relation otid slot g
      = .error "cstore_tuple_update not implemented" :=
  ⟨rfl, rfl⟩

/-- C8: `cstore_tuple_satisfies_snapshot` is true for every slot and
snapshot, and every successful `cstore_estimate_rel_size` reports an
all-visible fraction of exactly 1. -/
theorem c8_always_visible (rel : RelationInfo) (slot : TupleSlot) (snapshot : Nat)
    (cat : Catalog) :
    cstore_tuple_satisfies_snapshot rel slot snapshot = true ∧
    (∀ est, cstore_estimate_rel_size cat rel = .ok est → est.allvisfrac = 1) := by
  refine ⟨rfl, ?_⟩
  intro est h
  cases hm : cat rel.relNode with
  | none =>
    simp [cstore_estimate_rel_size, CStoreTableRowCount, hm, Bind.bind, Except.bind] at h
  | some m =>
    simp [cstore_estimate_rel_size, CStoreTableRowCount, hm, Bind.bind, Except.bind] at h
    rw [← h]

/-- C8 witness: visibility at a concrete slot and snapshot, and the concrete
estimate of `relEx` reports an all-visible fraction of 1. -/
theorem c8_always_visible_witness :
    cstore_tuple_satisfies_snapshot relEx slotEx 0 = true ∧
    ({ tuples := 2, allvisfrac := 1 } : RelSizeEstimate).allvisfrac = 1 :=
  ⟨(c8_always_visible relEx slotEx 0 catFullEx).1,
   (c8_always_visible relEx slotEx 0 catFullEx).2
     { tuples := 2, allvisfrac := 1 } rfl⟩

/-- C9: `cstore_multi_insert` on a non-empty slot list is exactly the
sequence of `cstore_tuple_insert` calls on those slots in order, and for
every slot list (including the empty one) both paths leave the same written
rows (registered stripes and buffered rows) for the relation. -/
theorem c9_multi_insert_eq_tuple_inserts (rel : RelationInfo) (opts : CStoreOptions)
    (slots : List TupleSlot) (g : GlobalState) :
    (slots ≠ [] →
      cstore_multi_insert rel slots opts g
        = slots.foldlM (fun h s => cstore_tuple_insert rel s opts h) g) ∧
    (∀ g1 g2, cstore_multi_insert rel slots opts g = .ok g1 →
      slots.foldlM (fun h s => cstore_tuple_insert rel s opts h) g = .ok g2 →
      writtenState g1 rel.relNode = writtenState g2 rel.relNode) := by
  obtain ⟨cat, wsopt⟩ := g
  have main : slots ≠ [] →
      cstore_multi_insert rel slots opts { catalog := cat, writeState := wsopt }
        = slots.foldlM (fun h s => cstore_tuple_insert rel s opts h)
            { catalog := cat, writeState := wsopt } := by
    intro hne
    match slots, hne with
    | s :: ss, _ =>
      cases wsopt with
      | none =>
        have hinit : cstore_init_write_state rel opts { catalog := cat, writeState := none }
            = .ok { catalog := (CStoreBeginWrite cat rel opts.compressionType
                      opts.stripeRowCount opts.blockRowCount rel.tupdesc).2,
                    writeState := some (CStoreBeginWrite cat rel opts.compressionType
                      opts.stripeRowCount opts.blockRowCount rel.tupdesc).1 } := by
          simp [cstore_init_write_state]
        have hti : cstore_tuple_insert rel s opts { catalog := cat, writeState := none }
            = .ok { catalog :=
                      (CStoreWriteRow
                        (CStoreBeginWrite cat rel opts.compressionType
                          opts.stripeRowCount opts.blockRowCount rel.tupdesc).1
                        (CStoreBeginWrite cat rel opts.compressionType
                          opts.stripeRowCount opts.blockRowCount rel.tupdesc).2
                        s.cells).2,
                    writeState := some
                      (CStoreWriteRow
                        (CStoreBeginWrite cat rel opts.compressionType
                          opts.stripeRowCount opts.blockRowCount rel.tupdesc).1
                        (CStoreBeginWrite cat rel opts.compressionType
                          opts.stripeRowCount opts.blockRowCount rel.tupdesc).2
                        s.cells).1 } := by
          rw [cstore_tuple_insert, hinit]
          simp only [Bind.bind, Except.bind]
          simp [slot_getallattrs_flatten]
        rw [cstore_multi_insert, hinit]
        simp only [Bind.bind, Except.bind]
        rw [foldl_multi_insert_step]
        rw [List.foldlM_cons, hti]
        simp only [Bind.bind, Except.bind]
        rw [foldlM_tuple_insert rel opts ss _ _
          (by rw [CStoreWriteRow_fst_relation]; rfl)]
        rw [← writeRows_cons, ← List.map_cons]
      | some ws =>
        by_cases hrd : ws.relation.rd_id = rel.rd_id
        · have hinit : cstore_init_write_state rel opts
              { catalog := cat, writeState := some ws }
              = .ok { catalog := cat, writeState := some ws } := by
            simp [cstore_init_write_state, hrd]
          rw [cstore_multi_insert, hinit]
          simp only [Bind.bind, Except.bind]
          rw [foldl_multi_insert_step]
          rw [foldlM_tuple_insert rel opts (s :: ss) ws cat hrd]
        · have hinit : cstore_init_write_state rel opts
              { catalog := cat, writeState := some ws }
              = .error "Assert failed: CStoreWriteState is open for another relation" := by
            simp [cstore_init_write_state, hrd]
          rw [cstore_multi_insert, hinit]
          simp only [Bind.bind, Except.bind]
          rw [List.foldlM_cons, cstore_tuple_insert, hinit]
          simp only [Bind.bind, Except.bind]
  refine ⟨main, ?_⟩
  intro g1 g2 h1 h2
  cases slots with
  | nil =>
    simp only [List.foldlM_nil] at h2
    have hg2 : g2 = { catalog := cat, writeState := wsopt } := by
      cases h2; rfl
    subst hg2
    cases wsopt with
    | some ws =>
      by_cases hrd : ws.relation.rd_id = rel.rd_id
      · have hinit : cstore_init_write_state rel opts
            { catalog := cat, writeState := some ws }
            = .ok { catalog := cat, writeState := some ws } := by
          simp [cstore_init_write_state, hrd]
        rw [cstore_multi_insert, hinit] at h1
        simp only [Bind.bind, Except.bind, List.foldl_nil] at h1
        cases h1
        rfl
      · have hinit : cstore_init_write_state rel opts
            { catalog := cat, writeState := some ws }
            = .error "Assert failed: CStoreWriteState is open for another relation" := by
          simp [cstore_init_write_state, hrd]
        rw [cstore_multi_insert, hinit] at h1
        simp only [Bind.bind, Except.bind] at h1
        cases h1
    | none =>
      have hinit : cstore_init_write_state rel opts { catalog := cat, writeState := none }
          = .ok { catalog := (CStoreBeginWrite cat rel opts.compressionType
                    opts.stripeRowCount opts.blockRowCount rel.tupdesc).2,
                  writeState := some (CStoreBeginWrite cat rel opts.compressionType
                    opts.stripeRowCount opts.blockRowCount rel.tupdesc).1 } := by
        simp [cstore_init_write_state]
      rw [cstore_multi_insert, hinit] at h1
      simp only [Bind.bind, Except.bind, List.foldl_nil] at h1
      cases h1
      cases hc : cat rel.relNode with
      | some m =>
        simp [writtenState, stripesOf, CStoreBeginWrite, hc]
      | none =>
        simp [writtenState, stripesOf, CStoreBeginWrite, hc, InitCStoreDataFileMetadata]
  | cons s ss =>
    rw [main (by simp)] at h1
    rw [h1] at h2
    cases h2
    rfl

/-- C9 witness: on the five example slots from a fresh state, the two insert
paths agree exactly. -/
theorem c9_multi_insert_eq_tuple_inserts_witness :
    cstore_multi_insert relEx slotsEx optsEx gNoneEx
      = slotsEx.foldlM (fun h s => cstore_tuple_insert relEx s optsEx h) gNoneEx :=
  (c9_multi_insert_eq_tuple_inserts relEx optsEx slotsEx gNoneEx).1 (by decide)

/-- C10: every scan begun with `cstore_beginscan` carries the relation's
full column list — one `Var` per non-dropped attribute, with
`varattno = position + 1`, in attribute-number order, dropped attributes
omitted — and a `NULL` qualification; no projected subset is ever passed. -/
theorem c10_beginscan_full_column_list (rel : RelationInfo) (cat : Catalog)
    (scan : CStoreScanDescData)
    (hscan : cstore_beginscan rel cat = .ok scan) :
    scan.cs_readState.projectedColumnList = RelationColumnList rel.tupdesc ∧
    scan.cs_readState.whereClauseList = none ∧
    (RelationColumnList rel.tupdesc).map Var.varattno
      = ((List.range rel.tupdesc.length).filter
          (fun i => !(rel.tupdesc.getD i ⟨0, false⟩).attisdropped)).map
          (fun i => i + 1) ∧
    ∀ v ∈ RelationColumnList rel.tupdesc,
      1 ≤ v.varattno ∧ v.varattno ≤ rel.tupdesc.length ∧
      v.vartype = (rel.tupdesc.getD (v.varattno - 1) ⟨0, false⟩).atttypid ∧
      (rel.tupdesc.getD (v.varattno - 1) ⟨0, false⟩).attisdropped = false := by
  have hwire : scan.cs_readState.projectedColumnList = RelationColumnList rel.tupdesc ∧
      scan.cs_readState.whereClauseList = none := by
    cases hm : cat rel.relNode with
    | none =>
      simp [cstore_beginscan, CStoreBeginRead, hm, Bind.bind, Except.bind] at hscan
    | some m =>
      simp only [cstore_beginscan, CStoreBeginRead, hm, Bind.bind, Except.bind] at hscan
      cases hscan
      exact ⟨rfl, rfl⟩
  refine ⟨hwire.1, hwire.2, RelationColumnList_map_varattno ⟨0, false⟩ rel.tupdesc, ?_⟩
  intro v hv
  have h := RelationColumnListFrom_mem ⟨0, false⟩ rel.tupdesc 0 v hv
  exact ⟨h.1, by simpa using h.2.1, h.2.2.1, h.2.2.2⟩

/-- C10 witness: over a relation with a dropped middle attribute, the scan
carries exactly the two live columns with attribute numbers 1 and 3 and no
qualification. -/
theorem c10_beginscan_full_column_list_witness :
    scanDropEx.cs_readState.projectedColumnList = RelationColumnList relDropEx.tupdesc ∧
    scanDropEx.cs_readState.whereClauseList = none ∧
    (RelationColumnList relDropEx.tupdesc).map Var.varattno
      = ((List.range relDropEx.tupdesc.length).filter
          (fun i => !(relDropEx.tupdesc.getD i ⟨0, false⟩).attisdropped)).map
          (fun i => i + 1) ∧
    ∀ v ∈ RelationColumnList relDropEx.tupdesc,
      1 ≤ v.varattno ∧ v.varattno ≤ relDropEx.tupdesc.length ∧
      v.vartype = (relDropEx.tupdesc.getD (v.varattno - 1) ⟨0, false⟩).atttypid ∧
      (relDropEx.tupdesc.getD (v.varattno - 1) ⟨0, false⟩).attisdropped = false :=
  c10_beginscan_full_column_list relDropEx catDropEx scanDropEx (by decide)

end CStore
